import Mathlib

/-
Shallow embedding of the JustiBot backend (FastAPI + SQLAlchemy + Gemini).

Sources embedded:
  src/backend/app/models/models.py      (CaseType, LegalCase)
  src/backend/app/models/schemas.py     (CaseCreate, CaseUpdate validation)
  src/backend/app/services/ai_service.py (generate_legal_text)
  src/backend/app/api/endpoints.py      (create_case, finalize_case, get_case)
  src/backend/app/core/database.py      (get_db: session with autocommit off,
                                         closed without commit on exception,
                                         so uncommitted mutations are discarded)

Conventions of the embedding:
  - A Python exception escaping an endpoint is `Except.error`; a returned
    value is `Except.ok`.
  - Every endpoint returns the resulting store state alongside its result, so
    that the absence of writes is a provable equation on the state. Because
    `get_db` creates the session with autocommit off and closes it without
    commit when an exception escapes (database.py lines 37, 70 to 76), an
    endpoint that raises leaves the store exactly as it was.
  - The module pdf_service (Document Renderer) is not among the sources; per
    the spec it is an external collaborator consumed through the contract
    Render(caseId, text, name, citizenId, city) -> artifactRef, may fail.
    `finalize_case` is therefore parameterized over a `Renderer` function.
  - The Gemini provider is modelled as an environment `GenAI` holding the
    catalog returned by genai.list_models and the outcome of
    model.generate_content for a given model name and prompt.
-/

namespace JustiBot

/-- models.py: class CaseType(str, enum.Enum) with values health and fine. -/
inductive CaseType
  | HEALTH
  | FINE
deriving DecidableEq

/-- The string value of the enum member (CaseType inherits from str). -/
def CaseType.value : CaseType → String
  | .HEALTH => "health"
  | .FINE => "fine"

/-- models.py: table legal_cases. Nullable columns are Option; created_at is
an abstract timestamp assigned by the store on insert. -/
structure LegalCase where
  id : Nat
  created_at : Nat
  citizen_name : Option String := none
  citizen_id : Option String := none
  city : Option String := none
  email : Option String := none
  case_type : CaseType
  description : String
  generated_text : Option String := none
  pdf_path : Option String := none
  status : String := "draft"
deriving DecidableEq

/-- One entry of the catalog returned by genai.list_models. -/
structure GModel where
  name : String
  supported_generation_methods : List String
deriving DecidableEq

/-- The external Gemini provider as seen by ai_service.py: the current model
catalog and, for a model name and a prompt, the outcome of generate_content
(ok with the response text, or error with the raised exception message). -/
structure GenAI where
  list_models : List GModel
  generate_content : String → String → Except String String

/-- ai_service.py lines 31 to 50: the system prompt literal. Only its first
line is reproduced here; the remainder of the literal is free text that no
control flow inspects, so it is elided. -/
def system_prompt : String :=
  "Eres JustiBot, un abogado experto colombiano potenciado con IA."

/-- ai_service.py line 57: the full prompt sent to the model. -/
def user_prompt (case_type description : String) : String :=
  "System Instruction: " ++ system_prompt ++ "\n\nCase Type: " ++ case_type
    ++ "\nUser Story: " ++ description

/-- ai_service.py lines 79 to 82: the names of the catalog models whose
supported_generation_methods contain generateContent, in catalog order. -/
def available_models (env : GenAI) : List String :=
  (env.list_models.filter
    (fun m => m.supported_generation_methods.contains "generateContent")).map
    (fun m => m.name)

/-- ai_service.py line 120: the placeholder returned when generation fails
after a model was selected. -/
def placeholder_text : String :=
  "Error generating legal text. Please try again later. (Error logged)"

/-- The Python error raised inside the except handler of generate_legal_text
when no model was selected: line 116 formats the log line with model_name,
a local variable that was never assigned on that path. -/
def unbound_model_name_error : String :=
  "UnboundLocalError: local variable model_name referenced before assignment"

/-- ai_service.py lines 22 to 120, generate_legal_text.

If the eligible catalog is empty, line 85 raises inside the try block; the
except handler (lines 111 to 120) then tries to log the model name attempted,
but model_name was never assigned, so the handler itself raises
UnboundLocalError, which escapes the function (the placeholder on line 120 is
never reached). If a model was selected, the first eligible name is used
(line 89: the list holds plain strings, so the hasattr branch picks the
string itself); a failure of generate_content is caught, logged with the
model name and the exception, and converted to the placeholder text.

The function holds no state across calls: the catalog is queried anew on
every invocation and nothing is cached at module level, which the embedding
reflects by being a pure function of the environment passed to each call. -/
def generate_legal_text (env : GenAI) (case_type description : String) :
    Except String String :=
  match available_models env with
  | [] => Except.error unbound_model_name_error
  | model_name :: _ =>
    match env.generate_content model_name (user_prompt case_type description) with
    | Except.ok text => Except.ok text
    | Except.error _ => Except.ok placeholder_text

/-- The raw JSON body of POST /cases/ before Pydantic validation. -/
structure RawCaseCreate where
  case_type : String
  description : String

/-- schemas.py lines 19 to 41: the validated CaseCreate payload. -/
structure CaseCreate where
  case_type : CaseType
  description : String
deriving DecidableEq

/-- Pydantic validation of CaseCreate: case_type must coerce to the CaseType
enum (by value, health or fine), otherwise a 422 validation error is raised.
description is annotated as a plain str with no length constraint, so the
empty string passes validation even though the docstring on line 34 of
schemas.py states it cannot be empty. -/
def CaseCreate.validate (r : RawCaseCreate) : Except String CaseCreate :=
  if r.case_type = "health" then
    Except.ok { case_type := CaseType.HEALTH, description := r.description }
  else if r.case_type = "fine" then
    Except.ok { case_type := CaseType.FINE, description := r.description }
  else
    Except.error "validation error: case_type"

/-- schemas.py lines 46 to 76: the finalize payload. citizen_name, citizen_id
and city are required, so validation guarantees they are present and they are
always members of the Pydantic fields-set. email defaults to None; email_set
records whether the caller explicitly supplied the email key (even as null),
which is what dict with exclude_unset true keys on. -/
structure CaseUpdate where
  citizen_name : String
  citizen_id : String
  city : String
  email : Option String := none
  email_set : Bool := false

/-- The store: the rows of legal_cases, the next autoincrement id, and the
timestamp the store will stamp on the next insert. -/
structure DB where
  cases : List LegalCase := []
  next_id : Nat := 1
  now : Nat := 0
deriving DecidableEq

/-- Store invariant maintained by autoincrement ids: every stored row has an
id below the next id to be assigned. -/
def DB.wf (db : DB) : Prop :=
  ∀ c ∈ db.cases, c.id < db.next_id

instance (db : DB) : Decidable db.wf := by
  unfold DB.wf
  infer_instance

/-- endpoints.py line 159: db.query(LegalCase).filter(id == case_id).first() -/
def DB.first? (db : DB) (case_id : Nat) : Option LegalCase :=
  db.cases.find? (fun c => c.id = case_id)

/-- The UPDATE executed by db.commit in finalize_case: every row with the
given id is replaced by the updated row. -/
def DB.update_case (db : DB) (case_id : Nat) (c : LegalCase) : DB :=
  { db with cases := db.cases.map (fun x => if x.id = case_id then c else x) }

/-- Errors surfaced by the endpoints. -/
inductive ApiError
  | notFound
  | exception (e : String)
deriving DecidableEq

/-- endpoints.py lines 34 to 105, create_case, after Pydantic validation.

Calls generate_legal_text; if that call raises, the exception escapes before
db.add, so the store is untouched. Otherwise a new LegalCase is inserted with
status draft and the generated text, and the refreshed row is returned. -/
def create_case (env : GenAI) (case_in : CaseCreate) (db : DB) :
    Except ApiError LegalCase × DB :=
  match generate_legal_text env case_in.case_type.value case_in.description with
  | Except.error e => (Except.error (ApiError.exception e), db)
  | Except.ok generated_text =>
    let db_case : LegalCase :=
      { id := db.next_id
        created_at := db.now
        case_type := case_in.case_type
        description := case_in.description
        generated_text := some generated_text
        status := "draft" }
    (Except.ok db_case,
      { db with cases := db.cases ++ [db_case], next_id := db.next_id + 1 })

/-- POST /cases/ as the caller sees it: Pydantic validation of the raw body,
then the endpoint function. A validation failure creates nothing. -/
def create_case_endpoint (env : GenAI) (raw : RawCaseCreate) (db : DB) :
    Except ApiError LegalCase × DB :=
  match CaseCreate.validate raw with
  | Except.error e => (Except.error (ApiError.exception e), db)
  | Except.ok case_in => create_case env case_in db

/-- The pdf_service.create_pdf contract (external collaborator; the module is
not among the sources): Render(case_id, content, user_name, user_id, city)
returns the artifact filename or fails. -/
def Renderer : Type :=
  Nat → Option String → Option String → Option String → Option String →
    Except String String

/-- endpoints.py lines 181 to 182: user_data.dict(exclude_unset=True) then
setattr per key. The three required fields are always in the fields-set;
email is applied only when the caller explicitly supplied it. -/
def apply_update (c : LegalCase) (u : CaseUpdate) : LegalCase :=
  { c with
    citizen_name := some u.citizen_name
    citizen_id := some u.citizen_id
    city := some u.city
    email := if u.email_set then u.email else c.email }

/-- endpoints.py lines 111 to 213, finalize_case.

Fetch the row; 404 if absent (nothing written). Apply the supplied fields,
call the renderer with the row id, the generated text and the citizen fields;
if it raises, the exception propagates and the session is closed without
commit, so the setattr mutations are discarded and the store is unchanged.
On success set pdf_path and status completed and commit the update. There is
no check of the current status: a completed case is refinalized like a draft
one. -/
def finalize_case (render : Renderer) (case_id : Nat) (user_data : CaseUpdate)
    (db : DB) : Except ApiError LegalCase × DB :=
  match db.first? case_id with
  | none => (Except.error ApiError.notFound, db)
  | some db_case =>
    let updated := apply_update db_case user_data
    match render updated.id updated.generated_text updated.citizen_name
        updated.citizen_id updated.city with
    | Except.error e => (Except.error (ApiError.exception e), db)
    | Except.ok pdf_filename =>
      let final : LegalCase :=
        { updated with pdf_path := some pdf_filename, status := "completed" }
      (Except.ok final, db.update_case case_id final)

/-- endpoints.py lines 218 to 259, get_case: a single SELECT, 404 if absent.
The session performs no commit, so the store is returned unchanged. -/
def get_case (case_id : Nat) (db : DB) : Except ApiError LegalCase × DB :=
  match db.first? case_id with
  | none => (Except.error ApiError.notFound, db)
  | some c => (Except.ok c, db)

/-- The first eligible model name the selection strategy of ai_service.py
picks for a call, if any. -/
def selected_model (env : GenAI) : Option String :=
  (available_models env).head?

/-- Two consecutive invocations of generate_legal_text, each against the
provider state current at its own call: the source keeps no module-level
cache, so the second call sees only its own environment. -/
def generate_legal_text_seq (e1 e2 : GenAI) (ct d : String) :
    Except String String × Except String String :=
  (generate_legal_text e1 ct d, generate_legal_text e2 ct d)

/-! Concrete fixtures used by witnesses and counterexamples. -/

/-- A provider with one text-capable model that always answers. -/
def env1 : GenAI :=
  { list_models := [{ name := "models/gemini-pro",
                      supported_generation_methods := ["generateContent"] }]
    generate_content := fun _ _ => Except.ok "TEXTO LEGAL" }

/-- A provider whose catalog holds no model at all. -/
def env_empty : GenAI :=
  { list_models := []
    generate_content := fun _ _ => Except.ok "unused" }

/-- A finalize payload without an email key. -/
def upd1 : CaseUpdate :=
  { citizen_name := "Juan", citizen_id := "123", city := "Bogota" }

/-- A renderer that succeeds with the artifact name of the source layout. -/
def render_ok : Renderer :=
  fun case_id _ _ _ _ => Except.ok ("case_" ++ toString case_id ++ ".pdf")

/-- A renderer that succeeds with a distinguishable artifact name. -/
def render_v2 : Renderer :=
  fun case_id _ _ _ _ => Except.ok ("v2_case_" ++ toString case_id ++ ".pdf")

/-- A renderer that always raises. -/
def render_fail : Renderer :=
  fun _ _ _ _ _ => Except.error "disk full"

/-- A valid creation payload. -/
def case_in1 : CaseCreate :=
  { case_type := CaseType.HEALTH, description := "Me negaron la medicina" }

/-- The store after one successful creation against the empty store. -/
def db1 : DB := (create_case env1 case_in1 ({} : DB)).2

/-- The row that creation against the empty store inserts. -/
def case1 : LegalCase :=
  { id := 1
    created_at := 0
    case_type := CaseType.HEALTH
    description := "Me negaron la medicina"
    generated_text := some "TEXTO LEGAL"
    status := "draft" }

/-- The store after a first successful finalization of case 1. -/
def db2 : DB := (finalize_case render_ok 1 upd1 db1).2

/-- Case 1 after its first finalization. -/
def case1_final : LegalCase :=
  { case1 with
    citizen_name := some "Juan"
    citizen_id := some "123"
    city := some "Bogota"
    pdf_path := some "case_1.pdf"
    status := "completed" }

/-- A provider whose single model answers every generation with a quota
error, driving the placeholder path of generate_legal_text. -/
def env_gen_fail : GenAI :=
  { list_models := [{ name := "models/gemini-pro",
                      supported_generation_methods := ["generateContent"] }]
    generate_content := fun _ _ => Except.error "quota exceeded" }

/-- The store after a creation whose generation failed: the stored case
carries the placeholder text. -/
def db_ph : DB := (create_case env_gen_fail case_in1 ({} : DB)).2

/-- The row db_ph holds: a draft whose generated_text is the placeholder. -/
def case_ph : LegalCase := { case1 with generated_text := some placeholder_text }

/-- Case 1 finalized while carrying the placeholder text. -/
def case_ph_final : LegalCase :=
  { case1_final with generated_text := some placeholder_text }

/-- A draft row that already stores a non-null email. -/
def case_em : LegalCase := { case1 with email := some "old.mail" }

/-- A store holding case_em. -/
def db_em : DB := { cases := [case_em], next_id := 2, now := 1 }

/-- A finalize payload whose email key is explicitly supplied as null. -/
def upd_null_email : CaseUpdate :=
  { citizen_name := "Juan"
    citizen_id := "123"
    city := "Bogota"
    email := none
    email_set := true }

/-- The row create_case inserts once generation produced the text g. -/
def new_case (case_in : CaseCreate) (db : DB) (g : String) : LegalCase :=
  { id := db.next_id
    created_at := db.now
    case_type := case_in.case_type
    description := case_in.description
    generated_text := some g
    status := "draft" }

/-! Helper lemmas shared by several claim proofs. -/

/-- Characterization of create_case once generation returned ok g. -/
theorem create_case_ok (env : GenAI) (case_in : CaseCreate) (db : DB)
    (g : String)
    (hg : generate_legal_text env case_in.case_type.value case_in.description
      = Except.ok g) :
    create_case env case_in db =
      (Except.ok (new_case case_in db g),
       { db with cases := db.cases ++ [new_case case_in db g]
                 next_id := db.next_id + 1 }) := by
  unfold create_case
  rw [hg]
  rfl

/-- Characterization of finalize_case once the fetch succeeded: the result is
decided by the single renderer call on the fetched row merged with the
payload. -/
theorem finalize_case_some (render : Renderer) (case_id : Nat)
    (u : CaseUpdate) (db : DB) (c : LegalCase)
    (hfind : db.first? case_id = some c) :
    finalize_case render case_id u db =
      match render c.id c.generated_text (some u.citizen_name)
          (some u.citizen_id) (some u.city) with
      | Except.error e => (Except.error (ApiError.exception e), db)
      | Except.ok pdf_filename =>
        (Except.ok { apply_update c u with
                     pdf_path := some pdf_filename
                     status := "completed" },
         db.update_case case_id
           { apply_update c u with
             pdf_path := some pdf_filename
             status := "completed" }) := by
  unfold finalize_case
  rw [hfind]
  rfl

/-- Appending a row whose id no existing row carries makes it the row that a
fetch by that id finds. -/
theorem find?_append_new (l : List LegalCase) (c : LegalCase)
    (h : ∀ x ∈ l, x.id ≠ c.id) :
    (l ++ [c]).find? (fun x => x.id = c.id) = some c := by
  induction l with
  | nil => simp
  | cons a t ih =>
    have ha : a.id ≠ c.id := h a (List.mem_cons_self a t)
    simp only [List.cons_append, List.find?]
    rw [decide_eq_false ha]
    exact ih (fun x hx => h x (List.mem_cons_of_mem a hx))

/-! Claim theorems. -/

/-- C1 (counterexample): in the source there is no Conflict branch. On a
concrete store holding case 1 already COMPLETED with documentRef case_1.pdf,
a second FinalizeCase does not fail: it returns the case again, the renderer
was invoked again (its fresh artifact name is observable), and the stored
pdf_path is overwritten by the new reference. -/
theorem C1_counterexample :
    db2.first? 1 = some case1_final ∧
    case1_final.status = "completed" ∧
    case1_final.pdf_path = some "case_1.pdf" ∧
    (finalize_case render_v2 1 upd1 db2).1 =
      Except.ok { case1_final with pdf_path := some "v2_case_1.pdf" } ∧
    ((finalize_case render_v2 1 upd1 db2).2.first? 1).map (fun c => c.pdf_path)
      = some (some "v2_case_1.pdf") :=
  ⟨rfl, rfl, rfl, rfl, rfl⟩

/-- C1 (amended): for every case whose status is COMPLETED, a second call to
FinalizeCase on the same id does not fail with Conflict: whenever the
renderer succeeds it succeeds again, re-invokes the Document Renderer, and
overwrites documentRef with the newly returned artifact reference, leaving
status COMPLETED. -/
theorem C1_refinalize_no_conflict (render : Renderer) (case_id : Nat)
    (u : CaseUpdate) (db : DB) (c : LegalCase) (r : String)
    (hfind : db.first? case_id = some c)
    (_hstatus : c.status = "completed")
    (hrender : render c.id c.generated_text (some u.citizen_name)
      (some u.citizen_id) (some u.city) = Except.ok r) :
    finalize_case render case_id u db =
      (Except.ok { apply_update c u with
                   pdf_path := some r
                   status := "completed" },
       db.update_case case_id
         { apply_update c u with
           pdf_path := some r
           status := "completed" }) := by
  rw [finalize_case_some render case_id u db c hfind, hrender]

/-- Closed instance of C1_refinalize_no_conflict on the concrete completed
store. -/
theorem C1_refinalize_no_conflict_witness :
    finalize_case render_v2 1 upd1 db2 =
      (Except.ok { apply_update case1_final upd1 with
                   pdf_path := some "v2_case_1.pdf"
                   status := "completed" },
       db2.update_case 1
         { apply_update case1_final upd1 with
           pdf_path := some "v2_case_1.pdf"
           status := "completed" }) :=
  C1_refinalize_no_conflict render_v2 1 upd1 db2 case1_final "v2_case_1.pdf"
    rfl rfl rfl

/-- C2 (code bug): when the provider exposes no eligible model, the raise on
line 85 of ai_service.py is caught by a handler that itself raises while
formatting the model name that was never assigned (line 116), so an exception
escapes CreateCase, contrary to the never-escapes policy the module
implements on every other failure path, and no case is created. -/
theorem C2_no_model_exception_escapes :
    create_case env_empty
        { case_type := CaseType.HEALTH, description := "x" } ({} : DB) =
      (Except.error (ApiError.exception unbound_model_name_error),
       ({} : DB)) := rfl

/-- C3 (code bug): the empty description passes validation and a case is
created from it, although the docstring of CaseCreate states the description
cannot be empty; the caseType half of the validation does reject an
unknown value. -/
theorem C3_empty_description_accepted :
    CaseCreate.validate { case_type := "health", description := "" } =
      Except.ok { case_type := CaseType.HEALTH, description := "" } ∧
    ((create_case_endpoint env1
        { case_type := "health", description := "" } ({} : DB)).2).cases.map
      (fun c => (c.description, c.status)) = [("", "draft")] ∧
    CaseCreate.validate { case_type := "tax", description := "x" } =
      Except.error "validation error: case_type" :=
  ⟨rfl, rfl, rfl⟩

/-- C4: when the renderer raises during finalization, the exception is
propagated to the caller and the store is returned exactly as it was: the
identity fields applied in memory are discarded with the uncommitted
session, no documentRef is stored, and the case row keeps its previous
status, so the caller may retry. -/
theorem C4_render_failure_all_or_nothing (render : Renderer) (case_id : Nat)
    (u : CaseUpdate) (db : DB) (c : LegalCase) (e : String)
    (hfind : db.first? case_id = some c)
    (hrender : render c.id c.generated_text (some u.citizen_name)
      (some u.citizen_id) (some u.city) = Except.error e) :
    finalize_case render case_id u db =
      (Except.error (ApiError.exception e), db) := by
  rw [finalize_case_some render case_id u db c hfind, hrender]

/-- Closed instance of C4_render_failure_all_or_nothing on the concrete
draft store with an always-failing renderer. -/
theorem C4_render_failure_witness :
    finalize_case render_fail 1 upd1 db1 =
      (Except.error (ApiError.exception "disk full"), db1) :=
  C4_render_failure_all_or_nothing render_fail 1 upd1 db1 case1 "disk full"
    rfl rfl

/-- C5: FinalizeCase on an id that no stored case carries fails with
NotFound, performs zero store writes, and never invokes the renderer: the
outcome is the same for every renderer. -/
theorem C5_not_found_zero_writes (render render2 : Renderer) (case_id : Nat)
    (u : CaseUpdate) (db : DB)
    (hfind : db.first? case_id = none) :
    finalize_case render case_id u db =
      (Except.error ApiError.notFound, db) ∧
    finalize_case render case_id u db = finalize_case render2 case_id u db := by
  constructor
  · unfold finalize_case; rw [hfind]
  · unfold finalize_case; rw [hfind]

/-- Closed instance of C5_not_found_zero_writes at an absent id. -/
theorem C5_not_found_witness :
    finalize_case render_ok 99 upd1 db1 =
      (Except.error ApiError.notFound, db1) ∧
    finalize_case render_ok 99 upd1 db1 =
      finalize_case render_fail 99 upd1 db1 :=
  C5_not_found_zero_writes render_ok render_fail 99 upd1 db1 rfl

/-- C6: a successful FinalizeCase writes back exactly the fetched row merged
with the supplied identity fields plus documentRef and status: the returned
and stored row keeps the create-time id, caseType, description,
generatedText and createdAt unchanged, and when the email key was not
supplied the previously stored email survives. -/
theorem C6_partial_update_frame (render : Renderer) (case_id : Nat)
    (u : CaseUpdate) (db : DB) (c final : LegalCase)
    (hfind : db.first? case_id = some c)
    (hok : (finalize_case render case_id u db).1 = Except.ok final) :
    final.id = c.id ∧ final.case_type = c.case_type ∧
    final.description = c.description ∧
    final.generated_text = c.generated_text ∧
    final.created_at = c.created_at ∧
    (u.email_set = false → final.email = c.email) ∧
    (finalize_case render case_id u db).2 = db.update_case case_id final := by
  rw [finalize_case_some render case_id u db c hfind] at hok ⊢
  cases hr : render c.id c.generated_text (some u.citizen_name)
      (some u.citizen_id) (some u.city) with
  | error e =>
    rw [hr] at hok
    exact Except.noConfusion (show (Except.error (ApiError.exception e) :
      Except ApiError LegalCase) = Except.ok final from hok)
  | ok pdf =>
    rw [hr] at hok
    have hok2 : Except.ok ({ apply_update c u with
        pdf_path := some pdf
        status := "completed" } : LegalCase) = Except.ok final := hok
    injection hok2 with h
    subst h
    refine ⟨rfl, rfl, rfl, rfl, rfl, ?_, rfl⟩
    intro hset
    simp [apply_update, hset]

/-- Closed instance of C6_partial_update_frame on the first finalization of
the concrete store. -/
theorem C6_partial_update_witness :
    case1_final.id = case1.id ∧ case1_final.case_type = case1.case_type ∧
    case1_final.description = case1.description ∧
    case1_final.generated_text = case1.generated_text ∧
    case1_final.created_at = case1.created_at ∧
    (upd1.email_set = false → case1_final.email = case1.email) ∧
    (finalize_case render_ok 1 upd1 db1).2 = db1.update_case 1 case1_final :=
  C6_partial_update_frame render_ok 1 upd1 db1 case1 case1_final rfl rfl

/-- C7: each invocation of the generator filters the catalog the provider
returns for that very call down to the text-capable models and uses the
first one; with an empty eligible set the call fails; and a second
invocation is a function of its own environment alone, there being no cache
across calls. -/
theorem C7_fresh_model_selection (env : GenAI) (ct d : String) :
    (available_models env = [] →
      generate_legal_text env ct d = Except.error unbound_model_name_error) ∧
    (∀ m rest, available_models env = m :: rest →
      selected_model env = some m ∧
      generate_legal_text env ct d =
        match env.generate_content m (user_prompt ct d) with
        | Except.ok text => Except.ok text
        | Except.error _ => Except.ok placeholder_text) ∧
    (∀ e1, (generate_legal_text_seq e1 env ct d).2 =
      generate_legal_text env ct d) := by
  refine ⟨?_, ?_, fun _ => rfl⟩
  · intro h
    unfold generate_legal_text
    rw [h]
  · intro m rest h
    constructor
    · unfold selected_model
      rw [h]
      rfl
    · unfold generate_legal_text
      rw [h]

/-- Closed instance of C7_fresh_model_selection on the one-model provider. -/
theorem C7_fresh_model_selection_witness :
    selected_model env1 = some "models/gemini-pro" ∧
    generate_legal_text env1 "health" "x" = Except.ok "TEXTO LEGAL" :=
  ⟨((C7_fresh_model_selection env1 "health" "x").2.1 "models/gemini-pro" []
      rfl).1,
   ((C7_fresh_model_selection env1 "health" "x").2.1 "models/gemini-pro" []
      rfl).2⟩

/-- C8: after a successful CreateCase against a well-formed store, GetCase on
the returned id returns that very case, whose caseType and description are
the ones supplied at creation, and GetCase leaves the store untouched. -/
theorem C8_round_trip (env : GenAI) (case_in : CaseCreate) (db : DB)
    (c : LegalCase) (hwf : db.wf)
    (hok : (create_case env case_in db).1 = Except.ok c) :
    get_case c.id (create_case env case_in db).2 =
      (Except.ok c, (create_case env case_in db).2) ∧
    c.case_type = case_in.case_type ∧
    c.description = case_in.description := by
  cases hg : generate_legal_text env case_in.case_type.value
      case_in.description with
  | error e =>
    unfold create_case at hok
    rw [hg] at hok
    simp at hok
  | ok g =>
    rw [create_case_ok env case_in db g hg] at hok ⊢
    have hok2 : Except.ok (new_case case_in db g) = Except.ok c := hok
    injection hok2 with hc
    subst hc
    refine ⟨?_, rfl, rfl⟩
    have hfind := find?_append_new db.cases (new_case case_in db g)
      (fun x hx => Nat.ne_of_lt (hwf x hx))
    show (match (db.cases ++ [new_case case_in db g]).find?
        (fun x => x.id = (new_case case_in db g).id) with
      | none => (Except.error ApiError.notFound, _)
      | some c => (Except.ok c, _)) = _
    rw [hfind]

/-- Closed instance of C8_round_trip on the empty store. -/
theorem C8_round_trip_witness :
    get_case case1.id (create_case env1 case_in1 ({} : DB)).2 =
      (Except.ok case1, (create_case env1 case_in1 ({} : DB)).2) ∧
    case1.case_type = case_in1.case_type ∧
    case1.description = case_in1.description :=
  C8_round_trip env1 case_in1 ({} : DB) case1 (by decide) rfl

/-- C9: an email key explicitly supplied as null is inside the Pydantic
fields-set, so exclude_unset keeps it and setattr stores null, overwriting a
previously stored non-null email. -/
theorem C9_explicit_null_email_overwrites (render : Renderer) (case_id : Nat)
    (u : CaseUpdate) (db : DB) (c final : LegalCase)
    (hfind : db.first? case_id = some c)
    (hset : u.email_set = true) (hnull : u.email = none)
    (hok : (finalize_case render case_id u db).1 = Except.ok final) :
    final.email = none := by
  rw [finalize_case_some render case_id u db c hfind] at hok
  cases hr : render c.id c.generated_text (some u.citizen_name)
      (some u.citizen_id) (some u.city) with
  | error e =>
    rw [hr] at hok
    exact Except.noConfusion (show (Except.error (ApiError.exception e) :
      Except ApiError LegalCase) = Except.ok final from hok)
  | ok pdf =>
    rw [hr] at hok
    have hok2 : Except.ok ({ apply_update c u with
        pdf_path := some pdf
        status := "completed" } : LegalCase) = Except.ok final := hok
    injection hok2 with h
    rw [← h]
    simp [apply_update, hset, hnull]

/-- Closed instance of C9_explicit_null_email_overwrites: a stored non-null
email is nulled by a payload carrying an explicit null email. -/
theorem C9_explicit_null_email_witness :
    case_em.email = some "old.mail" ∧ case1_final.email = none :=
  ⟨rfl, C9_explicit_null_email_overwrites render_ok 1 upd_null_email db_em
    case_em case1_final rfl rfl rfl rfl⟩

/-- C10: finalization never inspects generatedText: on a case whose
generation failed and whose generatedText is the placeholder, FinalizeCase
still succeeds whenever the renderer accepts the placeholder as content, the
rendered document reference is stored and status becomes COMPLETED, with the
placeholder untouched. -/
theorem C10_placeholder_still_finalizes (render : Renderer) (case_id : Nat)
    (u : CaseUpdate) (db : DB) (c : LegalCase) (r : String)
    (hfind : db.first? case_id = some c)
    (htext : c.generated_text = some placeholder_text)
    (hrender : render c.id (some placeholder_text) (some u.citizen_name)
      (some u.citizen_id) (some u.city) = Except.ok r) :
    finalize_case render case_id u db =
      (Except.ok { apply_update c u with
                   pdf_path := some r
                   status := "completed" },
       db.update_case case_id
         { apply_update c u with
           pdf_path := some r
           status := "completed" }) ∧
    ({ apply_update c u with
       pdf_path := some r
       status := "completed" } : LegalCase).status = "completed" ∧
    ({ apply_update c u with
       pdf_path := some r
       status := "completed" } : LegalCase).generated_text =
      some placeholder_text := by
  refine ⟨?_, rfl, ?_⟩
  · rw [finalize_case_some render case_id u db c hfind, htext, hrender]
  · exact htext

/-- Closed instance of C10_placeholder_still_finalizes on the store created
under a failing generator. -/
theorem C10_placeholder_witness :
    finalize_case render_ok 1 upd1 db_ph =
      (Except.ok case_ph_final, db_ph.update_case 1 case_ph_final) ∧
    case_ph_final.status = "completed" ∧
    case_ph_final.generated_text = some placeholder_text :=
  C10_placeholder_still_finalizes render_ok 1 upd1 db_ph case_ph "case_1.pdf"
    rfl rfl rfl

end JustiBot
